import Mathlib

/-!
Verification development for the membership access reconciliation engine of
the telegram client package (telegramClient.ts / sentiment.ts /
balanceChecker.ts / redis.ts).

The reconciliation tick is the anonymous async callback installed by
TelegramClient.setupPermissionChecker (the setInterval body).  We embed it as
a pure function from a tick environment (the configured group id, whether the
queue submission succeeds, and the scanned keys together with the store and
platform responses each key will observe) to the tick's observable effects
(which keys got a ban call, which keys were deleted, which errors were
logged).  The sentiment fan-out (SentimentService) is embedded the same way:
the subscriber callback and broadcastUpdate become pure functions from the
inbound event and configuration to the outbound send action.
-/

/-- A stored permission record as produced by JSON-parsing the value under a
`user:*:permissions` key.  The code only ever reads `data.hasRequiredBalance`. -/
structure PermissionData where
  hasRequiredBalance : Bool
  deriving Repr, DecidableEq

/-- The raw value found in the store under a permission key: either a string
that JSON-parses to a record, or a malformed (non-JSON) string, in which case
`JSON.parse(permissions)` throws.  Records that parse but lack the
`hasRequiredBalance` field are not modelled separately: the code treats the
absent field exactly like `false`. -/
inductive StoredVal where
  | valid (d : PermissionData)
  | malformed
  deriving Repr, DecidableEq

/-- Telegram chat-member statuses as returned by `getChatMember`. -/
inductive ChatMemberStatus where
  | creator
  | administrator
  | member
  | restricted
  | left
  | kicked
  deriving Repr, DecidableEq

/-- The part of the `getChatMember` result the tick reads: `member.status`
and `member.user.is_bot`. -/
structure ChatMember where
  status : ChatMemberStatus
  is_bot : Bool
  deriving Repr, DecidableEq

/-- Outcome of the awaited `getChatMember` call for one key: either a member
object, or a thrown network/API error (caught by the inner catch block). -/
inductive LookupResult where
  | ok (m : ChatMember)
  | err
  deriving Repr, DecidableEq

/-- Everything one iteration of the `for (const userKey of users)` loop
observes from the outside world: the `redis.get` result for the key
(`none` models a null reply), the `getChatMember` outcome, and whether a
`banChatMember` call, if issued, succeeds (`banOk = false` models the call
throwing, which the inner catch block absorbs). -/
structure KeyEnv where
  stored : Option StoredVal
  lookup : LookupResult
  banOk : Bool
  deriving Repr, DecidableEq

/-- The observable per-key effects of one loop iteration:
whether `banChatMember` was called for this user, whether `redis.del` ran for
this key, and whether an error was logged (by the inner catch, the outer
per-key catch, or a failed ban). -/
structure KeyOutcome where
  banCalled : Bool
  deleted : Bool
  errorLogged : Bool
  deriving Repr, DecidableEq

/-- One iteration of the per-key loop of the permission checker
(telegramClient setupPermissionChecker, the body of
`for (const userKey of users)`), translated branch by branch:

* `get` returns null: warn and `continue` (no delete);
* `JSON.parse` throws on a malformed value: the per-key catch logs and the
  loop moves on (the `redis.del` after the inner try block is skipped);
* `getChatMember` throws: the inner catch logs, and control falls through to
  `redis.del(userKey)` — the record is deleted;
* status `creator` or `administrator`: `continue` (no ban, and the
  `redis.del` after the inner try is skipped);
* `member.user.is_bot`: `banChatMember` is called; on success the branch ends
  in `continue` (no delete), on a thrown ban the inner catch logs and control
  falls through to the delete;
* otherwise, if `!data.hasRequiredBalance`: `banChatMember` is called, then
  (whether the ban succeeded or its error was caught) `redis.del` runs;
* otherwise: no ban, `redis.del` runs. -/
def processKey (e : KeyEnv) : KeyOutcome :=
  match e.stored with
  | none => { banCalled := false, deleted := false, errorLogged := false }
  | some StoredVal.malformed =>
      { banCalled := false, deleted := false, errorLogged := true }
  | some (StoredVal.valid d) =>
      match e.lookup with
      | LookupResult.err =>
          { banCalled := false, deleted := true, errorLogged := true }
      | LookupResult.ok m =>
          if m.status = ChatMemberStatus.creator ∨
             m.status = ChatMemberStatus.administrator then
            { banCalled := false, deleted := false, errorLogged := false }
          else if m.is_bot then
            if e.banOk then
              { banCalled := true, deleted := false, errorLogged := false }
            else
              { banCalled := true, deleted := true, errorLogged := true }
          else if !d.hasRequiredBalance then
            if e.banOk then
              { banCalled := true, deleted := true, errorLogged := false }
            else
              { banCalled := true, deleted := true, errorLogged := true }
          else
            { banCalled := false, deleted := true, errorLogged := false }

/-- A whole tick's environment: the `PRIVATE_GROUP_ID` setting (`""` models
the unset/falsy case guarded by `if (!groupId)`), whether the awaited
`balanceCheckService.queue.add` call succeeds, and the keys returned by the
`redis.keys("user:*:permissions")` scan paired with what each key's
processing will observe. -/
structure TickEnv where
  groupId : String
  queueAddOk : Bool
  keys : List (String × KeyEnv)
  deriving Repr, DecidableEq

/-- The observable effects of one tick: whether a balance-check job was
enqueued, the per-key outcomes of the loop (in scan order; empty when the
loop never ran), and whether the tick-level catch block logged an error. -/
structure TickResult where
  jobEnqueued : Bool
  outcomes : List (String × KeyOutcome)
  tickErrorLogged : Bool
  deriving Repr, DecidableEq

/-- The per-key loop over the scanned keys: each key is processed by
`processKey`, independently of the others. -/
def keyOutcomes (ks : List (String × KeyEnv)) : List (String × KeyOutcome) :=
  ks.map (fun p => (p.1, processKey p.2))

/-- One reconciliation tick — the setInterval callback of
TelegramClient.setupPermissionChecker:

* `if (!groupId)`: warn and return — no job, no scan (and the tick-level
  catch never fires);
* `await queue.add(...)` throws: control jumps to the tick-level catch, which
  logs; the key scan and the loop after the `await` never execute;
* otherwise the scan runs and every scanned key is processed in order. -/
def permissionCheckTick (env : TickEnv) : TickResult :=
  if env.groupId = "" then
    { jobEnqueued := false, outcomes := [], tickErrorLogged := false }
  else if !env.queueAddOk then
    { jobEnqueued := false, outcomes := [], tickErrorLogged := true }
  else
    { jobEnqueued := true, outcomes := keyOutcomes env.keys,
      tickErrorLogged := false }

/-- The permission keys still present in the store when the tick completes: a
key scanned at the start survives unless some processed outcome deleted it. -/
def remainingKeys (env : TickEnv) : List String :=
  (env.keys.map Prod.fst).filter (fun k =>
    !((permissionCheckTick env).outcomes.any (fun p => p.1 == k && p.2.deleted)))

/-- Aggregate statistics of a sentiment batch (SentimentUpdate.statistics in
sentiment.ts).  Scores are floating-point numbers in the source; no claim
inspects the rendered message text, so the numeric fields are carried as
`Float` but never computed with. -/
structure SentimentStatistics where
  averageScore : Float
  averageCredibility : Float
  sentimentDistribution : List (String × Float)
  topTopics : List (String × Nat)
  deriving Repr

/-- SentimentUpdate.metadata in sentiment.ts. -/
structure SentimentMetadata where
  totalTweetsAnalyzed : Nat
  significantTweetsCount : Nat
  targetAccounts : List String
  batchId : String
  deriving Repr

/-- Per-tweet analysis block of a sentiment batch. -/
structure TweetAnalysis where
  score : Float
  credibilityScore : Float
  sentiment : String
  deriving Repr

/-- Per-tweet engagement counters of a sentiment batch. -/
structure TweetEngagement where
  likes : Nat
  retweets : Nat
  replies : Nat
  views : Nat
  bookmarks : Nat
  deriving Repr

/-- One tweet entry of a sentiment batch. -/
structure SentimentTweet where
  name : String
  username : String
  text : String
  analysis : TweetAnalysis
  engagement : TweetEngagement
  deriving Repr

/-- A successfully parsed `sentiment:updates` payload (interface
SentimentUpdate in sentiment.ts). -/
structure SentimentUpdate where
  timestamp : Nat
  metadata : SentimentMetadata
  statistics : SentimentStatistics
  tweets : List SentimentTweet
  deriving Repr

/-- Removes the first occurrence of the character `c` from a character list:
the semantics of JavaScript `String.prototype.replace` called with the
string pattern `"-"` and the empty replacement, which rewrites only the
first match. -/
def removeFirstChar (c : Char) : List Char → List Char
  | [] => []
  | x :: xs => if x = c then xs else x :: removeFirstChar c xs

/-- JavaScript `s.replace('-', '')`: drop the first `'-'` found anywhere in
the string, leave any later ones in place. -/
def jsReplaceFirstDash (s : String) : String :=
  String.mk (removeFirstChar '-' s.data)

/-- The destination-id normalization used both by
SentimentService.broadcastUpdate and by the permission checker
(`formattedGroupId`): an id already starting with "-100" is used as-is;
otherwise `"-100" + id.replace('-', '')`. -/
def formattedGroupId (gid : String) : String :=
  if "-100".data.isPrefixOf gid.data then gid
  else "-100" ++ jsReplaceFirstDash gid

/-- SentimentService.broadcastUpdate: returns the single `sendMessage`
action, as the destination chat id paired with the batch being rendered, or
`none` when delivery is suppressed
(`update.metadata.significantTweetsCount === 0 || !this.privateGroupId`;
`""` models the falsy unset group id).  The rendered message text
(formatUpdateMessage) is the image of the batch and is not modelled
character by character: no claim concerns its contents. -/
def broadcastUpdate (privateGroupId : String) (update : SentimentUpdate) :
    Option (String × SentimentUpdate) :=
  if update.metadata.significantTweetsCount = 0 ∨ privateGroupId = "" then none
  else some (formattedGroupId privateGroupId, update)

/-- An inbound pub/sub payload: either a string that JSON-parses to a
`SentimentUpdate`, or a malformed string on which `JSON.parse` throws. -/
inductive Payload where
  | valid (u : SentimentUpdate)
  | malformed
  deriving Repr

/-- Observable behaviour of the subscriber callback on one inbound event:
whether `JSON.parse` was attempted on the payload, whether the catch block
logged a parse/processing error, and the `sendMessage` action (if any). -/
structure HandlerResult where
  parseAttempted : Bool
  parseErrorLogged : Bool
  sent : Option (String × SentimentUpdate)
  deriving Repr

/-- The `subscriber.on("message", ...)` callback installed by
SentimentService.setupSubscriber: events on any channel other than
"sentiment:updates" are ignored entirely; on the subscribed channel the
payload is parsed (a parse failure is caught and logged) and a parsed batch
is handed to `broadcastUpdate`. -/
def onSentimentMessage (privateGroupId : String) (channel : String)
    (payload : Payload) : HandlerResult :=
  if channel = "sentiment:updates" then
    match payload with
    | Payload.valid u =>
        { parseAttempted := true, parseErrorLogged := false,
          sent := broadcastUpdate privateGroupId u }
    | Payload.malformed =>
        { parseAttempted := true, parseErrorLogged := true, sent := none }
  else
    { parseAttempted := false, parseErrorLogged := false, sent := none }

/-- The fan-out's lifetime behaviour over a stream of inbound events: each
event is handled independently by the subscriber callback. -/
def processMessages (privateGroupId : String)
    (ms : List (String × Payload)) : List HandlerResult :=
  ms.map (fun p => onSentimentMessage privateGroupId p.1 p.2)

/-- The subscriber connection's subscription state: the list of channels
currently subscribed.  `unsubscribe ch` is the Redis UNSUBSCRIBE of one
channel: it removes the channel if present and is a successful no-op
otherwise (unsubscribing a channel that is not subscribed raises no error). -/
def unsubscribe (ch : String) (s : List String) : List String :=
  s.filter (fun c => c != ch)

/-- SentimentService.stop: `await this.redisService.subscriber.unsubscribe("sentiment:updates")`. -/
def sentimentStop (s : List String) : List String :=
  unsubscribe "sentiment:updates" s

/-- Modelled from the spec: the spec-side destination normalization, "strip
any leading sign and prepend the supergroup prefix".  This definition follows
the spec's words (the sign of a chat id being a leading `'-'`) and exists
only to be compared with `formattedGroupId`, the normalization the code
performs. -/
def stripLeadingSign (s : String) : String :=
  match s.data with
  | [] => s
  | c :: rest => if c = '-' then String.mk rest else s

/-- Modelled from the spec: the normalization as the spec states it — an id
already carrying the "-100" supergroup form is unchanged, any other id has
its leading sign stripped and the prefix prepended. -/
def specNormalizeDestination (gid : String) : String :=
  if "-100".data.isPrefixOf gid.data then gid
  else "-100" ++ stripLeadingSign gid

/-- A key whose record parses (insufficient balance) and whose member lookup
reports an administrator. -/
def c1Key : KeyEnv :=
  { stored := some (StoredVal.valid { hasRequiredBalance := false }),
    lookup := LookupResult.ok
      { status := ChatMemberStatus.administrator, is_bot := false },
    banOk := true }

/-- A one-key tick environment exercising the administrator branch. -/
def c1Env : TickEnv :=
  { groupId := "-100555", queueAddOk := true,
    keys := [("user:7:permissions", c1Key)] }

/-- A key whose record parses and whose member lookup throws. -/
def c2Key : KeyEnv :=
  { stored := some (StoredVal.valid { hasRequiredBalance := true }),
    lookup := LookupResult.err, banOk := true }

/-- A one-key tick environment exercising the lookup-failure branch. -/
def c2Env : TickEnv :=
  { groupId := "-100555", queueAddOk := true,
    keys := [("user:9:permissions", c2Key)] }

/-- A key holding a non-compliant ordinary member (would be banned and
deleted if the loop ran). -/
def c3Key : KeyEnv :=
  { stored := some (StoredVal.valid { hasRequiredBalance := false }),
    lookup := LookupResult.ok
      { status := ChatMemberStatus.member, is_bot := false },
    banOk := true }

/-- A tick environment whose queue submission fails. -/
def c3Env : TickEnv :=
  { groupId := "-100555", queueAddOk := false,
    keys := [("user:3:permissions", c3Key)] }

/-- A key for a group creator whose stored record says insufficient
balance. -/
def c4Key : KeyEnv :=
  { stored := some (StoredVal.valid { hasRequiredBalance := false }),
    lookup := LookupResult.ok
      { status := ChatMemberStatus.creator, is_bot := false },
    banOk := true }

/-- A one-key tick environment exercising the creator exemption. -/
def c4Env : TickEnv :=
  { groupId := "-100555", queueAddOk := true,
    keys := [("user:4:permissions", c4Key)] }

/-- A key for a bot account with an ordinary role whose stored record says
the balance IS sufficient. -/
def c5Key : KeyEnv :=
  { stored := some (StoredVal.valid { hasRequiredBalance := true }),
    lookup := LookupResult.ok
      { status := ChatMemberStatus.member, is_bot := true },
    banOk := true }

/-- A one-key tick environment exercising the bot-removal branch. -/
def c5Env : TickEnv :=
  { groupId := "-100555", queueAddOk := true,
    keys := [("user:5:permissions", c5Key)] }

/-- A concrete sentiment batch with zero significant tweets. -/
def c6Batch : SentimentUpdate :=
  { timestamp := 0,
    metadata := { totalTweetsAnalyzed := 4, significantTweetsCount := 0,
                  targetAccounts := ["acct"], batchId := "batch-0" },
    statistics := { averageScore := 0.5, averageCredibility := 0.5,
                    sentimentDistribution := [], topTopics := [] },
    tweets := [] }

/-- A malformed-record key used to show per-key error isolation. -/
def c8BadKey : KeyEnv :=
  { stored := some StoredVal.malformed, lookup := LookupResult.err,
    banOk := true }

/-- A well-formed non-compliant key scanned after the malformed one. -/
def c8GoodKey : KeyEnv :=
  { stored := some (StoredVal.valid { hasRequiredBalance := false }),
    lookup := LookupResult.ok
      { status := ChatMemberStatus.member, is_bot := false },
    banOk := true }

/-- A two-key tick environment: a malformed record followed by a well-formed
one. -/
def c8Env : TickEnv :=
  { groupId := "-100555", queueAddOk := true,
    keys := [("user:1:permissions", c8BadKey),
             ("user:2:permissions", c8GoodKey)] }

/-- Helper: on a tick that reaches the loop (group configured, queue
submission succeeded), every scanned key's outcome appears in the tick's
outcome list. -/
theorem mem_tick_outcomes {env : TickEnv} (hg : env.groupId ≠ "")
    (hq : env.queueAddOk = true) {k : String} {e : KeyEnv}
    (hmem : (k, e) ∈ env.keys) :
    (k, processKey e) ∈ (permissionCheckTick env).outcomes := by
  simp only [permissionCheckTick, hq, if_neg hg, Bool.not_true,
    Bool.false_eq_true, if_false, keyOutcomes]
  exact List.mem_map_of_mem (fun p => (p.1, processKey p.2)) hmem

/-- Helper: exact characterization of when one key's processing deletes the
record: the value must parse, and the membership lookup must either fail or
report a user who is neither creator nor administrator and is not a bot that
was successfully banned. -/
theorem processKey_deleted_iff (e : KeyEnv) :
    (processKey e).deleted = true ↔
      ((∃ d, e.stored = some (StoredVal.valid d)) ∧
        (e.lookup = LookupResult.err ∨
          ∃ m, e.lookup = LookupResult.ok m ∧
            ¬(m.status = ChatMemberStatus.creator ∨
              m.status = ChatMemberStatus.administrator) ∧
            (m.is_bot = false ∨ e.banOk = false))) := by
  obtain ⟨stored, lookup, banOk⟩ := e
  cases stored with
  | none => simp [processKey]
  | some v =>
    cases v with
    | malformed => simp [processKey]
    | valid d =>
      cases lookup with
      | err => simp [processKey]
      | ok m =>
        obtain ⟨st, bot⟩ := m
        obtain ⟨hb⟩ := d
        cases st <;> cases bot <;> cases banOk <;> cases hb <;>
          simp [processKey]

/-- Helper: removing the first occurrence of a character that does not occur
leaves the list unchanged. -/
theorem removeFirstChar_of_not_mem {c : Char} {l : List Char} (h : c ∉ l) :
    removeFirstChar c l = l := by
  induction l with
  | nil => rfl
  | cons x xs ih =>
    simp only [List.mem_cons, not_or] at h
    rw [removeFirstChar, if_neg (fun hx => h.1 hx.symm), ih h.2]

/-- Helper: on identifiers whose first character is a dash or that contain no
dash at all, removing the first dash anywhere agrees with stripping a leading
sign. -/
theorem jsReplaceFirstDash_eq_stripLeadingSign (gid : String)
    (h : gid.data.head? = some '-' ∨ '-' ∉ gid.data) :
    jsReplaceFirstDash gid = stripLeadingSign gid := by
  obtain ⟨l⟩ := gid
  rcases h with h | h
  · cases l with
    | nil => simp at h
    | cons x xs =>
      simp only [List.head?, Option.some.injEq] at h
      subst h
      simp [jsReplaceFirstDash, stripLeadingSign, removeFirstChar]
  · rw [jsReplaceFirstDash]
    cases l with
    | nil => rfl
    | cons x xs =>
      simp only [List.mem_cons, not_or] at h
      have hx : ¬x = '-' := fun hx => h.1 hx.symm
      rw [show (String.mk (x :: xs)).data = x :: xs from rfl,
        removeFirstChar, if_neg hx, removeFirstChar_of_not_mem h.2,
        stripLeadingSign]
      simp only [if_neg hx]

/-- Claim C1 — counterexample.  The claim says every permission key present
at the start of a tick is deleted by the time the tick completes, regardless
of the per-key outcome (explicitly including role exemption).  In `c1Env` the
single key's record parses but the member is an administrator; that branch
ends in `continue`, which skips the `redis.del` after the inner try block, so
the key is still in the store when the tick completes. -/
theorem c1_counterexample_admin_key_survives :
    ("user:7:permissions", c1Key) ∈ c1Env.keys ∧
    remainingKeys c1Env = ["user:7:permissions"] := by decide

/-- Claim C1 (amended): on a tick that reaches the key loop, every scanned
key is processed, and its record is deleted by the end of the tick exactly
when the stored value parses and the membership lookup either fails or
reports a user who is neither creator nor administrator and is not a bot
whose ban succeeded.  Keys of role-exempt users, of successfully banned bots,
of missing values and of malformed records are NOT deleted and survive the
tick. -/
theorem c1_amended_tick_deletion (env : TickEnv) (hg : env.groupId ≠ "")
    (hq : env.queueAddOk = true) (k : String) (e : KeyEnv)
    (hmem : (k, e) ∈ env.keys) :
    (k, processKey e) ∈ (permissionCheckTick env).outcomes ∧
    ((processKey e).deleted = true ↔
      ((∃ d, e.stored = some (StoredVal.valid d)) ∧
        (e.lookup = LookupResult.err ∨
          ∃ m, e.lookup = LookupResult.ok m ∧
            ¬(m.status = ChatMemberStatus.creator ∨
              m.status = ChatMemberStatus.administrator) ∧
            (m.is_bot = false ∨ e.banOk = false)))) :=
  ⟨mem_tick_outcomes hg hq hmem, processKey_deleted_iff e⟩

/-- Witness for the amended C1 theorem at the concrete environment `c1Env`. -/
theorem c1_amended_witness :
    (c1Env.groupId ≠ "" ∧ c1Env.queueAddOk = true ∧
      ("user:7:permissions", c1Key) ∈ c1Env.keys) ∧
    (("user:7:permissions", processKey c1Key) ∈
        (permissionCheckTick c1Env).outcomes ∧
      ((processKey c1Key).deleted = true ↔
        ((∃ d, c1Key.stored = some (StoredVal.valid d)) ∧
          (c1Key.lookup = LookupResult.err ∨
            ∃ m, c1Key.lookup = LookupResult.ok m ∧
              ¬(m.status = ChatMemberStatus.creator ∨
                m.status = ChatMemberStatus.administrator) ∧
              (m.is_bot = false ∨ c1Key.banOk = false))))) :=
  ⟨⟨by decide, by decide, by decide⟩,
    c1_amended_tick_deletion c1Env (by decide) (by decide)
      "user:7:permissions" c1Key (by decide)⟩

/-- Claim C2 — counterexample.  The claim says a key whose membership lookup
fails is left in place for the next tick to retry.  In `c2Env` the lookup
throws; the inner catch logs it and control falls through to
`redis.del(userKey)`, so the key is deleted that very tick and nothing
remains to retry. -/
theorem c2_counterexample_lookup_failure_deletes :
    (permissionCheckTick c2Env).outcomes =
      [("user:9:permissions",
        { banCalled := false, deleted := true, errorLogged := true })] ∧
    remainingKeys c2Env = [] := by decide

/-- Claim C2 (amended): on lookup failure the error is logged and the tick
continues (no ban for that user, and every scanned key is still processed),
but the permission record is deleted that same tick — it is NOT left in place
for the next tick's scan. -/
theorem c2_amended_lookup_failure_logged_and_deleted (env : TickEnv)
    (hg : env.groupId ≠ "") (hq : env.queueAddOk = true) (k : String)
    (e : KeyEnv) (hmem : (k, e) ∈ env.keys) (d : PermissionData)
    (hs : e.stored = some (StoredVal.valid d))
    (hl : e.lookup = LookupResult.err) :
    (k, processKey e) ∈ (permissionCheckTick env).outcomes ∧
    processKey e =
      { banCalled := false, deleted := true, errorLogged := true } ∧
    (permissionCheckTick env).outcomes.length = env.keys.length := by
  refine ⟨mem_tick_outcomes hg hq hmem, ?_, ?_⟩
  · simp [processKey, hs, hl]
  · simp [permissionCheckTick, hg, hq, keyOutcomes]

/-- Witness for the amended C2 theorem at the concrete environment `c2Env`. -/
theorem c2_amended_witness :
    (c2Env.groupId ≠ "" ∧ c2Env.queueAddOk = true ∧
      ("user:9:permissions", c2Key) ∈ c2Env.keys ∧
      c2Key.stored =
        some (StoredVal.valid { hasRequiredBalance := true }) ∧
      c2Key.lookup = LookupResult.err) ∧
    (("user:9:permissions", processKey c2Key) ∈
        (permissionCheckTick c2Env).outcomes ∧
      processKey c2Key =
        { banCalled := false, deleted := true, errorLogged := true } ∧
      (permissionCheckTick c2Env).outcomes.length = c2Env.keys.length) :=
  ⟨⟨by decide, by decide, by decide, by decide, by decide⟩,
    c2_amended_lookup_failure_logged_and_deleted c2Env (by decide) (by decide)
      "user:9:permissions" c2Key (by decide)
      { hasRequiredBalance := true } (by decide) (by decide)⟩

/-- Claim C3 — counterexample.  The claim says that when the queue submission
fails, the tick still scans and processes the permission keys.  In `c3Env`
the submission fails; the thrown error jumps to the tick-level catch, so no
key is processed: the non-compliant member of `c3Key` is not banned and the
key remains in the store. -/
theorem c3_counterexample_queue_failure_skips_scan :
    (permissionCheckTick c3Env).outcomes = [] ∧
    (permissionCheckTick c3Env).tickErrorLogged = true ∧
    remainingKeys c3Env = ["user:3:permissions"] := by decide

/-- Claim C3 (amended): a failed queue submission is caught and logged — but
by the tick-level handler, which aborts the rest of that tick: no job is
enqueued, the key scan and per-key processing do not run, and every key
present at the start of the tick is left in the store. -/
theorem c3_amended_queue_failure_aborts_tick (env : TickEnv)
    (hg : env.groupId ≠ "") (hq : env.queueAddOk = false) :
    permissionCheckTick env =
      { jobEnqueued := false, outcomes := [], tickErrorLogged := true } ∧
    remainingKeys env = env.keys.map Prod.fst := by
  constructor
  · simp [permissionCheckTick, hg, hq]
  · simp [remainingKeys, permissionCheckTick, hg, hq]

/-- Witness for the amended C3 theorem at the concrete environment `c3Env`. -/
theorem c3_amended_witness :
    (c3Env.groupId ≠ "" ∧ c3Env.queueAddOk = false) ∧
    (permissionCheckTick c3Env =
        { jobEnqueued := false, outcomes := [], tickErrorLogged := true } ∧
      remainingKeys c3Env = c3Env.keys.map Prod.fst) :=
  ⟨⟨by decide, by decide⟩,
    c3_amended_queue_failure_aborts_tick c3Env (by decide) (by decide)⟩

/-- Claim C4 (confirmed): when the membership lookup reports role creator
(owner) or administrator, that branch ends in `continue` before any
`banChatMember` call, so no removal is ever issued for that user that tick —
whatever the stored balance flag (or even a missing/malformed record) says. -/
theorem c4_role_exempt_never_banned (env : TickEnv) (hg : env.groupId ≠ "")
    (hq : env.queueAddOk = true) (k : String) (e : KeyEnv)
    (hmem : (k, e) ∈ env.keys) (m : ChatMember)
    (hl : e.lookup = LookupResult.ok m)
    (hrole : m.status = ChatMemberStatus.creator ∨
             m.status = ChatMemberStatus.administrator) :
    (k, processKey e) ∈ (permissionCheckTick env).outcomes ∧
    (processKey e).banCalled = false := by
  refine ⟨mem_tick_outcomes hg hq hmem, ?_⟩
  cases hst : e.stored with
  | none => simp [processKey, hst]
  | some v =>
    cases v with
    | malformed => simp [processKey, hst]
    | valid d => simp [processKey, hst, hl, hrole]

/-- Witness for the C4 theorem at the concrete environment `c4Env`: a creator
whose stored record says `hasRequiredBalance = false` gets no ban call. -/
theorem c4_witness :
    (c4Env.groupId ≠ "" ∧ c4Env.queueAddOk = true ∧
      ("user:4:permissions", c4Key) ∈ c4Env.keys ∧
      c4Key.lookup = LookupResult.ok
        { status := ChatMemberStatus.creator, is_bot := false } ∧
      (ChatMemberStatus.creator = ChatMemberStatus.creator ∨
        ChatMemberStatus.creator = ChatMemberStatus.administrator)) ∧
    (("user:4:permissions", processKey c4Key) ∈
        (permissionCheckTick c4Env).outcomes ∧
      (processKey c4Key).banCalled = false) :=
  ⟨⟨by decide, by decide, by decide, by decide, Or.inl rfl⟩,
    c4_role_exempt_never_banned c4Env (by decide) (by decide)
      "user:4:permissions" c4Key (by decide)
      { status := ChatMemberStatus.creator, is_bot := false }
      (by decide) (Or.inl rfl)⟩

/-- Claim C5 (confirmed): when the membership lookup reports a bot account
whose role is neither creator nor administrator, the tick issues a
`banChatMember` call for that user, whatever the stored balance flag says and
whether or not the ban itself then succeeds. -/
theorem c5_nonexempt_bot_banned (env : TickEnv) (hg : env.groupId ≠ "")
    (hq : env.queueAddOk = true) (k : String) (e : KeyEnv)
    (hmem : (k, e) ∈ env.keys) (d : PermissionData) (m : ChatMember)
    (hs : e.stored = some (StoredVal.valid d))
    (hl : e.lookup = LookupResult.ok m)
    (hnc : m.status ≠ ChatMemberStatus.creator)
    (hna : m.status ≠ ChatMemberStatus.administrator)
    (hbot : m.is_bot = true) :
    (k, processKey e) ∈ (permissionCheckTick env).outcomes ∧
    (processKey e).banCalled = true := by
  refine ⟨mem_tick_outcomes hg hq hmem, ?_⟩
  have hrole : ¬(m.status = ChatMemberStatus.creator ∨
      m.status = ChatMemberStatus.administrator) := by
    rintro (h | h)
    · exact hnc h
    · exact hna h
  cases hbk : e.banOk <;> simp [processKey, hs, hl, hrole, hbot, hbk]

/-- Witness for the C5 theorem at the concrete environment `c5Env`: a bot
with ordinary role and a record saying `hasRequiredBalance = true` still gets
the ban call. -/
theorem c5_witness :
    (c5Env.groupId ≠ "" ∧ c5Env.queueAddOk = true ∧
      ("user:5:permissions", c5Key) ∈ c5Env.keys ∧
      c5Key.stored =
        some (StoredVal.valid { hasRequiredBalance := true }) ∧
      c5Key.lookup = LookupResult.ok
        { status := ChatMemberStatus.member, is_bot := true } ∧
      (ChatMemberStatus.member ≠ ChatMemberStatus.creator ∧
        ChatMemberStatus.member ≠ ChatMemberStatus.administrator)) ∧
    (("user:5:permissions", processKey c5Key) ∈
        (permissionCheckTick c5Env).outcomes ∧
      (processKey c5Key).banCalled = true) :=
  ⟨⟨by decide, by decide, by decide, by decide, by decide,
      by decide, by decide⟩,
    c5_nonexempt_bot_banned c5Env (by decide) (by decide)
      "user:5:permissions" c5Key (by decide)
      { hasRequiredBalance := true }
      { status := ChatMemberStatus.member, is_bot := true }
      (by decide) (by decide) (by decide) (by decide) (by decide)⟩

/-- Claim C6 (confirmed): broadcastUpdate returns before any formatting or
send when the batch's significant-tweet count is zero or no destination group
id is configured, so no outbound message is produced for that batch. -/
theorem c6_suppressed_when_zero_or_unconfigured (gid : String)
    (u : SentimentUpdate)
    (h : u.metadata.significantTweetsCount = 0 ∨ gid = "") :
    broadcastUpdate gid u = none := by
  simp only [broadcastUpdate, if_pos h]

/-- Witness for the C6 theorem: the concrete zero-significant batch
`c6Batch` produces no send even with a destination configured. -/
theorem c6_witness :
    (c6Batch.metadata.significantTweetsCount = 0 ∨ ("-100999" : String) = "") ∧
    broadcastUpdate "-100999" c6Batch = none :=
  ⟨Or.inl rfl,
    c6_suppressed_when_zero_or_unconfigured "-100999" c6Batch (Or.inl rfl)⟩

/-- Claim C7 — counterexample.  The claim says any id not starting with
"-100" normalizes to "-100" plus the id with a leading sign stripped.  The
code instead removes the FIRST dash anywhere
(`this.privateGroupId.replace('-', '')`): on the id "12-34", which has no
leading sign, the claim demands "-10012-34" but the code yields "-1001234". -/
theorem c7_counterexample_interior_dash :
    formattedGroupId "12-34" = "-1001234" ∧
    specNormalizeDestination "12-34" = "-10012-34" ∧
    formattedGroupId "12-34" ≠ specNormalizeDestination "12-34" := by decide

/-- Claim C7 (amended): an id already starting with "-100" is used unchanged;
any other id gets "-100" prepended after its first dash ANYWHERE is removed.
This agrees with the spec's leading-sign-stripping exactly on ids that start
with a dash or contain none at all (so "123456" normalizes to "-100123456"),
and differs only on ids with an interior dash and no leading one. -/
theorem c7_amended_normalization (gid : String)
    (h : gid.data.head? = some '-' ∨ '-' ∉ gid.data) :
    formattedGroupId gid = specNormalizeDestination gid := by
  unfold formattedGroupId specNormalizeDestination
  rw [jsReplaceFirstDash_eq_stripLeadingSign gid h]

/-- Witness for the amended C7 theorem at the bare numeric id "123456". -/
theorem c7_amended_witness :
    ((("123456" : String).data.head? = some '-' ∨
        '-' ∉ ("123456" : String).data) ∧
      formattedGroupId "123456" = "-100123456") ∧
    formattedGroupId "123456" = specNormalizeDestination "123456" :=
  ⟨⟨Or.inr (by decide), by decide⟩,
    c7_amended_normalization "123456" (Or.inr (by decide))⟩

/-- Claim C8 (confirmed): a malformed stored permission record makes the
per-key catch log the error and move on — no ban, no delete for that key, and
every key after it in the scan is still processed exactly as it would have
been; a malformed inbound sentiment payload makes the subscriber's catch log
the parse error and send nothing, and every other inbound event is still
handled exactly as it would have been.  Neither parse failure escapes its
handler. -/
theorem c8_malformed_isolated :
    (∀ (env : TickEnv) (ks1 ks2 : List (String × KeyEnv)) (k : String)
        (e : KeyEnv),
      env.groupId ≠ "" → env.queueAddOk = true →
      env.keys = ks1 ++ (k, e) :: ks2 →
      e.stored = some StoredVal.malformed →
      (permissionCheckTick env).outcomes =
        keyOutcomes ks1 ++
          (k, { banCalled := false, deleted := false, errorLogged := true })
            :: keyOutcomes ks2) ∧
    (∀ (gid : String) (ms1 ms2 : List (String × Payload)),
      processMessages gid
          (ms1 ++ ("sentiment:updates", Payload.malformed) :: ms2) =
        processMessages gid ms1 ++
          { parseAttempted := true, parseErrorLogged := true, sent := none }
            :: processMessages gid ms2) := by
  constructor
  · intro env ks1 ks2 k e hg hq hkeys hs
    simp [permissionCheckTick, hg, hq, hkeys, keyOutcomes, processKey, hs]
  · intro gid ms1 ms2
    simp [processMessages, onSentimentMessage]

/-- Witness for the C8 theorem: the concrete two-key environment `c8Env`
(malformed record first, well-formed key second) and a concrete inbound
stream around a malformed payload. -/
theorem c8_witness :
    (c8Env.groupId ≠ "" ∧ c8Env.queueAddOk = true ∧
      c8Env.keys =
        [] ++ ("user:1:permissions", c8BadKey)
          :: [("user:2:permissions", c8GoodKey)] ∧
      c8BadKey.stored = some StoredVal.malformed) ∧
    ((permissionCheckTick c8Env).outcomes =
        keyOutcomes [] ++
          ("user:1:permissions",
            { banCalled := false, deleted := false, errorLogged := true })
            :: keyOutcomes [("user:2:permissions", c8GoodKey)] ∧
      processMessages "-100999"
          ([("other:channel", Payload.malformed)] ++
            ("sentiment:updates", Payload.malformed) :: []) =
        processMessages "-100999" [("other:channel", Payload.malformed)] ++
          { parseAttempted := true, parseErrorLogged := true, sent := none }
            :: processMessages "-100999" []) :=
  ⟨⟨by decide, by decide, by decide, by decide⟩,
    ⟨c8_malformed_isolated.1 c8Env []
        [("user:2:permissions", c8GoodKey)] "user:1:permissions" c8BadKey
        (by decide) (by decide) (by decide) (by decide),
      c8_malformed_isolated.2 "-100999"
        [("other:channel", Payload.malformed)] []⟩⟩

/-- Claim C9 (confirmed): SentimentService.stop only unsubscribes the
"sentiment:updates" channel; unsubscribing an already-unsubscribed channel is
a no-op, so a second stop changes nothing and the channel stays
unsubscribed — stop is idempotent. -/
theorem c9_stop_idempotent (s : List String) :
    sentimentStop (sentimentStop s) = sentimentStop s ∧
    "sentiment:updates" ∉ sentimentStop s := by
  constructor
  · simp [sentimentStop, unsubscribe, List.filter_filter]
  · simp [sentimentStop, unsubscribe, List.mem_filter]

/-- Claim C10 (confirmed): the subscriber callback checks the channel name
first; an event on any channel other than "sentiment:updates" is dropped
without parsing the payload and without sending anything. -/
theorem c10_other_channel_ignored (gid ch : String) (p : Payload)
    (h : ch ≠ "sentiment:updates") :
    onSentimentMessage gid ch p =
      { parseAttempted := false, parseErrorLogged := false, sent := none } := by
  simp only [onSentimentMessage, if_neg h]

/-- Witness for the C10 theorem: an event on channel "queue:events" with an
unparseable payload is ignored without a parse attempt. -/
theorem c10_witness :
    (("queue:events" : String) ≠ "sentiment:updates") ∧
    onSentimentMessage "-100999" "queue:events" Payload.malformed =
      { parseAttempted := false, parseErrorLogged := false, sent := none } :=
  ⟨by decide,
    c10_other_channel_ignored "-100999" "queue:events" Payload.malformed
      (by decide)⟩
